import Mathlib

/-!
Verification of the core of `rust-vsv` (`src/utils.rs`): a shallow embedding
of its five components (text trimming, duration formatting, status-line
rendering, process inspection, terminal-capability detection) together with
theorems settling the specification claims.

Strings are modelled by Lean `String`.  Rust's `str::len()` is the UTF-8
byte count, embedded as `utf8Len`; Rust's `str::chars()` corresponds to
`String.toList`, and character counts (used by Rust's `Formatter::pad`) are
embedded as `charLen`.  A Rust `panic!`/`assert!` is modelled by an
`Option`-valued function returning `none`; recoverable `anyhow::Result`
errors are modelled with `Except VsvError`.
-/

/-- Character count of a string (Rust `s.chars().count()`). -/
def charLen (s : String) : Nat := s.toList.length

/-- UTF-8 byte count of a list of characters. -/
def utf8LenL (l : List Char) : Nat := (l.map Char.utf8Size).sum

/-- UTF-8 byte count of a string (Rust `s.len()`). -/
def utf8Len (s : String) : Nat := utf8LenL s.toList

/-- Error taxonomy of the core.  The code produces `IoError` (a wrapped
filesystem or spawn failure, carrying its context message), `ParseError`,
`ExecutionError` (naming the failed program) and `EncodingError` (invalid
UTF-8 in captured stdout).  `InvocationError` is listed in the spec's
taxonomy for an empty argument list; it is included here so claims about it
can be stated. -/
inductive VsvError where
  | IoError (msg : String)
  | ParseError (msg : String)
  | InvocationError
  | ExecutionError (prog : String)
  | EncodingError
  deriving DecidableEq, Repr

/--
`trim_long_string` from `src/utils.rs`:

* `suffix_len = suffix.len()` and `len = s.len()` are UTF-8 byte counts;
* `assert!(limit > suffix_len)` is modelled by returning `none` (abort);
* if `len < limit` the string is returned unchanged;
* otherwise the first `limit - suffix_len` *characters* (`s.chars().take`)
  are concatenated with `suffix`.
-/
def trim_long_string (s : String) (limit : Nat) (suffix : String) :
    Option String :=
  let suffix_len := utf8Len suffix
  if limit > suffix_len then
    let len := utf8Len s
    if len < limit then
      some s
    else
      some ((s.toList.take (limit - suffix_len)).asString ++ suffix)
  else
    none

/-- Left-align `s` in a field of width `w`, padding with spaces; the width
is a minimum, counted in characters (Rust `format!` with a positional width
on a `str`-like `Display`). -/
def padRight (s : String) (w : Nat) : String :=
  s ++ (List.replicate (w - charLen s) ' ').asString

/-- One iteration of the rendering loop of `format_status_line`:
`line = format!("{0} {1:2$}", line, style.paint(text), max)` in the
unstyled case, where `text` has already been trimmed.  The `Option`
propagates the trim assertion. -/
def renderField (line text : String) (max : Nat) (suffix : String) :
    Option String :=
  (trim_long_string text max suffix).map
    (fun t => line ++ " " ++ padRight t max)

/--
`format_status_line` from `src/utils.rs`, restricted to the unstyled case
(`style.paint` is the identity on display when the style is plain, and the
format width pads the painted text to the field's maximum width).  The line
starts as a single space and each of the seven fields is appended as
`" " ++ padded field`, with the fixed schema
`(1, ""), (20, "..."), (7, "..."), (9, "..."), (8, "..."), (17, "..."),
(99, "...")`.
-/
def format_status_line (status_char name state enabled pid command time :
    String) : Option String :=
  (renderField " " status_char 1 "").bind (fun l1 =>
  (renderField l1 name 20 "...").bind (fun l2 =>
  (renderField l2 state 7 "...").bind (fun l3 =>
  (renderField l3 enabled 9 "...").bind (fun l4 =>
  (renderField l4 pid 8 "...").bind (fun l5 =>
  (renderField l5 command 17 "...").bind (fun l6 =>
  (renderField l6 time 99 "...")))))))

/-- Rust `str::split('\0')`, accumulator form: splitting on NUL always
yields one more field than there are separators, so the result is never
empty (an empty input yields `[""]`). -/
def splitNulAux : List Char → List Char → List String
  | [], acc => [acc.reverse.asString]
  | c :: rest, acc =>
    if c = '\x00' then
      acc.reverse.asString :: splitNulAux rest []
    else
      splitNulAux rest (c :: acc)

/-- Rust `data.split('\0')` as a list of fields. -/
def splitNul (s : String) : List String := splitNulAux s.toList []

/-- Outcome of `fs::read_to_string` on one `cmdline` file.  `missing`
models any `io::Error` (absent directory, permission denied, …);
`invalidUtf8` models the `InvalidData` `io::Error` that
`fs::read_to_string` returns when the file's bytes are not valid UTF-8 —
both are `io::Error`s and both are wrapped by the same
`with_context` message. -/
inductive ReadResult where
  | missing
  | invalidUtf8
  | ok (data : String)
  deriving DecidableEq, Repr

/--
`cmd_from_pid` from `src/utils.rs`.  The process-information filesystem is
abstracted as `fs : Nat → ReadResult`, giving the outcome of reading
`<PROC_PATH>/<pid>/cmdline` (the path itself only appears in the error
context message, abstracted here to a fixed prefix).  On a successful read
the data is split on NUL and the first field is returned; `split().next()`
on a Rust string is never `None`, making the `ParseError` branch dead, but
it is embedded faithfully via `List.head?`.
-/
def cmd_from_pid (fs : Nat → ReadResult) (pid : Nat) :
    Except VsvError String :=
  match fs pid with
  | .missing => .error (.IoError ("failed to read pid file: " ++ toString pid))
  | .invalidUtf8 => .error (.IoError ("failed to read pid file: " ++ toString pid))
  | .ok data =>
    match (splitNul data).head? with
    | some f => .ok f
    | none => .error (.ParseError "failed to split cmdline data")

/-- Captured standard output of a spawned child: either not valid UTF-8 or
a decoded string. -/
inductive OutBytes where
  | invalidUtf8
  | valid (s : String)
  deriving DecidableEq, Repr

/-- Outcome of `Command::new(cmd).args(args).output()`: the spawn itself
can fail with an `io::Error`, or the child exits with a success flag and
captured stdout bytes. -/
inductive SpawnResult where
  | spawnFail
  | exited (success : Bool) (stdout : OutBytes)
  deriving DecidableEq, Repr

/--
`run_program` from `src/utils.rs`.  Spawning is abstracted as
`spawn : String → List String → SpawnResult` applied to `args[0]` and
`args[1..]`.  The leading `assert!(!args.is_empty())` is a panic, modelled
by `none`; all other failures are returned `Err` values: spawn failure is
an `IoError`, a non-zero exit status an `ExecutionError` naming the
program, and invalid UTF-8 in the captured stdout an `EncodingError`.
-/
def run_program (spawn : String → List String → SpawnResult)
    (args : List String) : Option (Except VsvError String) :=
  match args with
  | [] => none
  | cmd :: rest =>
    match spawn cmd rest with
    | .spawnFail => some (.error (.IoError "failed to run program"))
    | .exited success stdout =>
      if success then
        match stdout with
        | .invalidUtf8 => some (.error .EncodingError)
        | .valid s => some (.ok s)
      else
        some (.error (.ExecutionError cmd))

/-- The scan loop of `relative_duration`: `plural` is the mutable variable
set to `"s"` whenever the current count exceeds 1, and the first entry with
a positive count is returned as `"<num> <name><plural>"`. -/
def rdLoop : List (Nat × String) → String → String
  | [], _ => "0 seconds"
  | (num, name) :: rest, plural =>
    let plural := if num > 1 then "s" else plural
    if num > 0 then
      toString num ++ " " ++ name ++ plural
    else
      rdLoop rest plural

/-- The unit table of `relative_duration`, with the successive integer
divisions exactly as written in the source. -/
def rdTable (secs : Nat) : List (Nat × String) :=
  [ (secs / 60 / 60 / 24 / 365, "year"),
    (secs / 60 / 60 / 24 / 30 , "month"),
    (secs / 60 / 60 / 24 / 7  , "week"),
    (secs / 60 / 60 / 24      , "day"),
    (secs / 60 / 60           , "hour"),
    (secs / 60                , "minute"),
    (secs                     , "second") ]

/-- `relative_duration` from `src/utils.rs`, on whole seconds
(`t.as_secs()`). -/
def relative_duration (secs : Nat) : String :=
  rdLoop (rdTable secs) ""

/-- The spec's description of the duration algorithm: return the first
unit whose count is positive, pluralized exactly when the count exceeds 1;
`"0 seconds"` when every count is zero. -/
def firstPosFmt : List (Nat × String) → String
  | [] => "0 seconds"
  | (num, name) :: rest =>
    if num > 0 then
      toString num ++ " " ++ name ++ (if num > 1 then "s" else "")
    else
      firstPosFmt rest

/-- The spec's flat-divisor unit table: years (divide by 31,536,000),
months (2,592,000), weeks (604,800), days (86,400), hours (3,600),
minutes (60), seconds. -/
def specTable (secs : Nat) : List (Nat × String) :=
  [ (secs / 31536000, "year"),
    (secs / 2592000 , "month"),
    (secs / 604800  , "week"),
    (secs / 86400   , "day"),
    (secs / 3600    , "hour"),
    (secs / 60      , "minute"),
    (secs           , "second") ]

/-- The duration formatter as described by the spec. -/
def specDuration (secs : Nat) : String :=
  firstPosFmt (specTable secs)

/-- `should_colorize_output` from `src/utils.rs`: `no_color_env` is
whether the `NO_COLOR` environment variable is present (its value is never
inspected — the code uses `is_some()`), and `tty` is `isatty(1)`. -/
def should_colorize_output (no_color_env : Bool) (tty : Bool) : Bool :=
  if no_color_env then false else tty

/-! ### Helper lemmas -/

theorem charLen_append (s t : String) :
    charLen (s ++ t) = charLen s + charLen t := by
  simp [charLen, String.toList, String.data_append]

theorem charLen_asString (l : List Char) : charLen l.asString = l.length := rfl

theorem length_le_utf8LenL (l : List Char) : l.length ≤ utf8LenL l := by
  induction l with
  | nil => simp [utf8LenL]
  | cons c cs ih =>
    have hc : 0 < c.utf8Size := Char.utf8Size_pos c
    simp only [utf8LenL, List.map_cons, List.sum_cons, List.length_cons] at ih ⊢
    omega

theorem charLen_le_utf8Len (s : String) : charLen s ≤ utf8Len s :=
  length_le_utf8LenL s.toList

theorem charLen_padRight (s : String) (w : Nat) (h : charLen s ≤ w) :
    charLen (padRight s w) = w := by
  simp only [padRight, charLen_append, charLen_asString, List.length_replicate]
  omega

theorem trim_noop (s : String) (limit : Nat) (suffix : String)
    (hs : utf8Len suffix < limit) (h : utf8Len s < limit) :
    trim_long_string s limit suffix = some s := by
  simp [trim_long_string, hs, h]

theorem renderField_noop (line text : String) (max : Nat) (suffix : String)
    (hs : utf8Len suffix < max) (h : utf8Len text < max) :
    renderField line text max suffix =
      some (line ++ " " ++ padRight text max) := by
  simp [renderField, trim_noop text max suffix hs h]

theorem charLen_space : charLen " " = 1 := rfl

theorem splitNulAux_cons (l : List Char) :
    ∀ acc, ∃ f rest, splitNulAux l acc = f :: rest := by
  induction l with
  | nil => intro acc; exact ⟨acc.reverse.asString, [], rfl⟩
  | cons c cs ih =>
    intro acc
    by_cases hc : c = '\x00'
    · exact ⟨acc.reverse.asString, splitNulAux cs [], by simp [splitNulAux, hc]⟩
    · obtain ⟨f, rest, hfr⟩ := ih (c :: acc)
      exact ⟨f, rest, by simp [splitNulAux, hc, hfr]⟩

theorem splitNul_cons (s : String) :
    ∃ f rest, splitNul s = f :: rest :=
  splitNulAux_cons s.toList []

theorem cmd_from_pid_ok (fs : Nat → ReadResult) (pid : Nat) (data : String)
    (h : fs pid = .ok data) :
    cmd_from_pid fs pid = .ok ((splitNul data).headI) := by
  obtain ⟨f, rest, hfr⟩ := splitNul_cons data
  simp [cmd_from_pid, h, hfr]

theorem rdLoop_eq_firstPosFmt (l : List (Nat × String)) :
    rdLoop l "" = firstPosFmt l := by
  induction l with
  | nil => rfl
  | cons p rest ih =>
    obtain ⟨num, name⟩ := p
    by_cases h1 : num > 1
    · have h0 : num > 0 := by omega
      simp [rdLoop, firstPosFmt, h1, h0]
    · by_cases h0 : num > 0
      · simp [rdLoop, firstPosFmt, h1, h0]
      · simp [rdLoop, firstPosFmt, h1, h0, ih]

/-! ### Claim theorems -/

/-- Claim C4 (amended): for `L` exceeding the suffix byte length, if the
UTF-8 byte length of `s` is below `L` then `trim_long_string` returns `s`
unchanged; otherwise it returns the first `L - byteLen(suffix)` characters
of `s` concatenated with `suffix`, and that result has character count at
most `L` and ends with `suffix`.  (The code compares byte lengths, not
character counts, and the bound that survives on the result is the
character count.) -/
theorem C4_trim_spec (s : String) (L : Nat) (suffix : String)
    (h : utf8Len suffix < L) :
    (utf8Len s < L → trim_long_string s L suffix = some s) ∧
    (¬ utf8Len s < L →
      trim_long_string s L suffix =
        some ((s.toList.take (L - utf8Len suffix)).asString ++ suffix) ∧
      charLen ((s.toList.take (L - utf8Len suffix)).asString ++ suffix) ≤ L ∧
      suffix.toList <:+
        ((s.toList.take (L - utf8Len suffix)).asString ++ suffix).toList) := by
  constructor
  · intro hlt
    exact trim_noop s L suffix h hlt
  · intro hge
    refine ⟨by simp [trim_long_string, h, hge], ?_, ?_⟩
    · have hsfx : charLen suffix ≤ utf8Len suffix := charLen_le_utf8Len suffix
      have htake : (s.toList.take (L - utf8Len suffix)).length ≤
          L - utf8Len suffix := List.length_take_le _ _
      simp only [charLen_append, charLen_asString]
      omega
    · have : ((s.toList.take (L - utf8Len suffix)).asString ++ suffix).toList
          = (s.toList.take (L - utf8Len suffix)).asString.toList
            ++ suffix.toList := by
        simp [String.toList, String.data_append]
      rw [this]
      exact List.suffix_append _ _

/-- Claim C4 witness: the amended theorem instantiated at
`s = "0123456789"`, `L = 10`, `suffix = "..."` (the truncating branch). -/
theorem C4_trim_spec_witness :
    trim_long_string "0123456789" 10 "..." =
      some (("0123456789".toList.take (10 - utf8Len "...")).asString
        ++ "...") ∧
    charLen (("0123456789".toList.take (10 - utf8Len "...")).asString
        ++ "...") ≤ 10 ∧
    "...".toList <:+
      (("0123456789".toList.take (10 - utf8Len "...")).asString
        ++ "...").toList :=
  (C4_trim_spec "0123456789" 10 "..." (by decide)).2 (by decide)

/-- Claim C4 counterexample: `"ééééé"` has 5 characters (below the limit
10) but 10 UTF-8 bytes, so the code truncates it instead of returning it
unchanged — refuting the claim under the character-count reading of
"length" — and the truncated result `"ééééé..."` has 13 UTF-8 bytes,
exceeding the limit 10 — refuting "the result has length at most L" under
the byte-count reading. -/
theorem C4_counterexample :
    charLen "ééééé" = 5 ∧ utf8Len "ééééé" = 10 ∧ utf8Len "..." = 3 ∧
    trim_long_string "ééééé" 10 "..." = some "ééééé..." ∧
    "ééééé..." ≠ "ééééé" ∧ utf8Len "ééééé..." = 13 := by decide

/-- Claim C8: calling `trim_long_string` with `limit` at most the suffix
length hits the assertion and aborts (modelled by `none`) rather than
returning a value; under the precondition `limit > length(suffix)` the
abort branch is unreachable and the function always returns a string. -/
theorem C8_trim_assert (s : String) (limit : Nat) (suffix : String) :
    (limit ≤ utf8Len suffix → trim_long_string s limit suffix = none) ∧
    (utf8Len suffix < limit → ∃ r, trim_long_string s limit suffix = some r)
    := by
  constructor
  · intro hle
    simp [trim_long_string, Nat.not_lt.mpr hle]
  · intro hlt
    by_cases hs : utf8Len s < limit
    · exact ⟨s, trim_noop s limit suffix hlt hs⟩
    · refine ⟨(s.toList.take (limit - utf8Len suffix)).asString ++ suffix, ?_⟩
      simp [trim_long_string, hlt, hs]

/-- Claim C8 witness: with `limit = 2` and suffix `"..."` (3 bytes) the
call aborts; with `limit = 4` it returns a value. -/
theorem C8_trim_assert_witness :
    trim_long_string "abc" 2 "..." = none ∧
    ∃ r, trim_long_string "abc" 4 "..." = some r :=
  ⟨(C8_trim_assert "abc" 2 "...").1 (by decide),
   (C8_trim_assert "abc" 4 "...").2 (by decide)⟩

/-- Claim C9: `trim_long_string` decides truncation by UTF-8 byte length:
`"ééééé"` has 5 characters (fewer than the limit 10) but 10 bytes, so it
is truncated and gets the suffix appended instead of being returned
unchanged; and the ASCII string `"0123456789"`, whose byte length equals
the limit exactly, is shortened to `"0123456..."` even though it already
fits the width. -/
theorem C9_trim_bytes :
    (charLen "ééééé" < 10 ∧ 10 ≤ utf8Len "ééééé" ∧
      trim_long_string "ééééé" 10 "..." = some "ééééé..." ∧
      "ééééé..." ≠ "ééééé") ∧
    (utf8Len "0123456789" = 10 ∧
      trim_long_string "0123456789" 10 "..." = some "0123456..." ∧
      "0123456..." ≠ "0123456789") := by decide

/-- Claim C5: `relative_duration` agrees with the spec's algorithm — walk
the fixed descending table years (divide by 31,536,000), months
(2,592,000), weeks (604,800), days (86,400), hours (3,600), minutes (60),
seconds, with integer floor division, return the first positive count as
`"<count> <unit>"` with `"s"` appended exactly when the count exceeds 1,
and `"0 seconds"` when every count is zero — and in particular 90 seconds
gives `"1 minute"`, 59 seconds gives `"59 seconds"`, and 2 days gives
`"2 days"`. -/
theorem C5_relative_duration (secs : Nat) :
    relative_duration secs = specDuration secs ∧
    relative_duration 90 = "1 minute" ∧
    relative_duration 59 = "59 seconds" ∧
    relative_duration 172800 = "2 days" ∧
    relative_duration 0 = "0 seconds" := by
  refine ⟨?_, rfl, rfl, rfl, rfl⟩
  have htab : rdTable secs = specTable secs := by
    simp [rdTable, specTable, Nat.div_div_eq_div_mul]
  rw [relative_duration, specDuration, htab, rdLoop_eq_firstPosFmt]

/-- Claim C7: `should_colorize_output` returns `false` whenever `NO_COLOR`
is present (the code never inspects its value), regardless of whether
stdout is a terminal; when `NO_COLOR` is absent it returns exactly
`isatty(1)`. -/
theorem C7_should_colorize (tty : Bool) :
    should_colorize_output true tty = false ∧
    should_colorize_output false tty = tty := by
  simp [should_colorize_output]

/-- Claim C1 (amended): when no field's text requires truncation (each
text's byte length is below its field width), the unstyled rendered line
has exactly 169 characters: the seven fixed widths
(1+20+7+9+8+17+99 = 161), one separating space between each adjacent pair
of fields (6), and TWO leading spaces — the initial space the line starts
with plus the loop's separator emitted before the first field. -/
theorem C1_render_length (sc nm st en pd cm tm : String)
    (h1 : utf8Len sc < 1) (h2 : utf8Len nm < 20) (h3 : utf8Len st < 7)
    (h4 : utf8Len en < 9) (h5 : utf8Len pd < 8) (h6 : utf8Len cm < 17)
    (h7 : utf8Len tm < 99) :
    ∃ line, format_status_line sc nm st en pd cm tm = some line ∧
      charLen line = 169 := by
  have c1 : charLen sc ≤ 1 := by
    have := charLen_le_utf8Len sc; omega
  have c2 : charLen nm ≤ 20 := by
    have := charLen_le_utf8Len nm; omega
  have c3 : charLen st ≤ 7 := by
    have := charLen_le_utf8Len st; omega
  have c4 : charLen en ≤ 9 := by
    have := charLen_le_utf8Len en; omega
  have c5 : charLen pd ≤ 8 := by
    have := charLen_le_utf8Len pd; omega
  have c6 : charLen cm ≤ 17 := by
    have := charLen_le_utf8Len cm; omega
  have c7 : charLen tm ≤ 99 := by
    have := charLen_le_utf8Len tm; omega
  rw [format_status_line, renderField_noop " " sc 1 "" (by decide) h1,
    Option.some_bind]
  rw [renderField_noop _ nm 20 "..." (by decide) h2, Option.some_bind]
  rw [renderField_noop _ st 7 "..." (by decide) h3, Option.some_bind]
  rw [renderField_noop _ en 9 "..." (by decide) h4, Option.some_bind]
  rw [renderField_noop _ pd 8 "..." (by decide) h5, Option.some_bind]
  rw [renderField_noop _ cm 17 "..." (by decide) h6, Option.some_bind]
  rw [renderField_noop _ tm 99 "..." (by decide) h7]
  refine ⟨_, rfl, ?_⟩
  simp only [charLen_append, charLen_space, charLen_padRight sc 1 c1,
    charLen_padRight nm 20 c2, charLen_padRight st 7 c3,
    charLen_padRight en 9 c4, charLen_padRight pd 8 c5,
    charLen_padRight cm 17 c6, charLen_padRight tm 99 c7]

/-- Claim C1 witness: the amended theorem instantiated at a concrete
untruncated input. -/
theorem C1_render_length_witness :
    ∃ line, format_status_line "" "getty" "run" "true" "1234" "getty"
      "10 seconds" = some line ∧ charLen line = 169 :=
  C1_render_length "" "getty" "run" "true" "1234" "getty" "10 seconds"
    (by decide) (by decide) (by decide) (by decide) (by decide) (by decide)
    (by decide)

set_option maxRecDepth 4000 in
/-- Claim C1 counterexample: at a concrete unstyled, untruncated input the
rendered line has 169 characters, not the 168 the claim computes — the
loop emits a separator space before the first field on top of the single
space the line is initialized with, so the line starts with two spaces. -/
theorem C1_counterexample :
    (format_status_line "" "a" "b" "c" "d" "e" "f").map charLen =
      some 169 ∧
    (format_status_line "" "a" "b" "c" "d" "e" "f").map charLen ≠
      some 168 := by decide

/-- The filesystem model in which every `cmdline` read yields the empty
record. -/
def fsEmpty : Nat → ReadResult := fun _ => .ok ""

/-- Claim C2 (amended): the `ParseError` branch of `cmd_from_pid` is dead
code — splitting on NUL always yields at least one (possibly empty) field,
so every successfully read record produces a success value, and no call
ever returns a `ParseError`. -/
theorem C2_no_parse_error (fs : Nat → ReadResult) (pid : Nat) :
    (∀ data, fs pid = .ok data → ∃ f, cmd_from_pid fs pid = .ok f) ∧
    (∀ m, cmd_from_pid fs pid ≠ .error (.ParseError m)) := by
  constructor
  · intro data h
    exact ⟨_, cmd_from_pid_ok fs pid data h⟩
  · intro m
    cases hfs : fs pid with
    | missing => simp [cmd_from_pid, hfs]
    | invalidUtf8 => simp [cmd_from_pid, hfs]
    | ok data =>
      obtain ⟨f, rest, hfr⟩ := splitNul_cons data
      simp [cmd_from_pid, hfs, hfr]

/-- Claim C2 witness: the amended theorem applied to the
empty-record filesystem. -/
theorem C2_no_parse_error_witness :
    ∃ f, cmd_from_pid fsEmpty 1 = Except.ok f :=
  (C2_no_parse_error fsEmpty 1).1 "" rfl

/-- Claim C2 counterexample: the structurally empty record `""` — the
emptiest record a read can produce — yields the success value `Ok ""`, not
a `ParseError`. -/
theorem C2_counterexample :
    cmd_from_pid fsEmpty 2 = .ok "" ∧
    cmd_from_pid fsEmpty 2 ≠
      .error (.ParseError "failed to split cmdline data") := by
  refine ⟨rfl, ?_⟩
  intro h
  simp [cmd_from_pid, fsEmpty, splitNul, splitNulAux] at h

/-- A spawner that always fails to start the child. -/
def spawnNone : String → List String → SpawnResult := fun _ _ => .spawnFail

/-- Claim C3 (amended): `run_program` on an empty argument list hits the
`assert!` and aborts the process (modelled by `none`) instead of returning
a recoverable error; in fact no call of `run_program` ever returns an
`InvocationError` value. -/
theorem C3_empty_args_aborts (spawn : String → List String → SpawnResult) :
    run_program spawn [] = none ∧
    ∀ args, run_program spawn args ≠ some (.error .InvocationError) := by
  refine ⟨rfl, ?_⟩
  intro args
  match args with
  | [] => simp [run_program]
  | cmd :: rest =>
    simp only [run_program]
    cases spawn cmd rest with
    | spawnFail => simp
    | exited success stdout =>
      cases success <;> cases stdout <;> simp

/-- Claim C3 counterexample: with a concrete spawner and the empty
argument list, `run_program` aborts (`none`) — it does not return the
typed `InvocationError` the claim describes. -/
theorem C3_counterexample :
    run_program spawnNone [] = none ∧
    run_program spawnNone [] ≠ some (.error .InvocationError) := by
  refine ⟨rfl, ?_⟩
  intro h
  simp [run_program] at h

/-- The synthetic filesystem of the spec's example: pid 7 has a `cmdline`
record with bytes `"/bin/true\x00arg1\x00"`, every other pid directory is
missing. -/
def fsTrue : Nat → ReadResult := fun p =>
  if p = 7 then .ok "/bin/true\x00arg1\x00" else .missing

/-- Claim C6: `cmd_from_pid` returns exactly the first NUL-delimited field
of a successfully read record, discarding everything after the first NUL;
the record `"/bin/true\x00arg1\x00"` splits into
`["/bin/true", "arg1", ""]` whose first field is `"/bin/true"`, and a root
missing the pid directory fails with `IoError`. -/
theorem C6_cmd_first_field (fs : Nat → ReadResult) (pid : Nat) :
    (∀ data, fs pid = .ok data →
      cmd_from_pid fs pid = .ok ((splitNul data).headI)) ∧
    (fs pid = .missing →
      cmd_from_pid fs pid =
        .error (.IoError ("failed to read pid file: " ++ toString pid))) ∧
    splitNul "/bin/true\x00arg1\x00" = ["/bin/true", "arg1", ""] ∧
    cmd_from_pid fsTrue 7 = .ok "/bin/true" := by
  refine ⟨fun data h => cmd_from_pid_ok fs pid data h,
    fun h => by simp [cmd_from_pid, h], by decide, rfl⟩

/-- Claim C6 witness: the theorem applied at the synthetic filesystem, for
the present pid (success on the first field) and an absent pid
(`IoError`). -/
theorem C6_cmd_first_field_witness :
    cmd_from_pid fsTrue 7 =
      .ok ((splitNul "/bin/true\x00arg1\x00").headI) ∧
    cmd_from_pid fsTrue 8 =
      .error (.IoError ("failed to read pid file: " ++ toString 8)) :=
  ⟨(C6_cmd_first_field fsTrue 7).1 _ rfl,
   (C6_cmd_first_field fsTrue 8).2.1 rfl⟩

/-- The filesystem model in which every `cmdline` file holds invalid
UTF-8. -/
def fsBad : Nat → ReadResult := fun _ => .invalidUtf8

/-- A spawner whose child succeeds but emits invalid UTF-8 on stdout. -/
def spawnBadOut : String → List String → SpawnResult :=
  fun _ _ => .exited true .invalidUtf8

/-- Claim C10: a readable `cmdline` file whose bytes are not valid UTF-8
makes `cmd_from_pid` fail with the I/O-style read error (the
"failed to read pid file" context), not a distinct encoding error —
`cmd_from_pid` never returns `EncodingError` on any input — while
`run_program` does return `EncodingError` for invalid UTF-8 in captured
stdout. -/
theorem C10_encoding_surface (fs : Nat → ReadResult) (pid : Nat)
    (h : fs pid = .invalidUtf8) :
    cmd_from_pid fs pid =
      .error (.IoError ("failed to read pid file: " ++ toString pid)) ∧
    (∀ (fs2 : Nat → ReadResult) (pid2 : Nat),
      cmd_from_pid fs2 pid2 ≠ .error .EncodingError) ∧
    run_program spawnBadOut ["prog"] = some (.error .EncodingError) := by
  refine ⟨by simp [cmd_from_pid, h], ?_, rfl⟩
  intro fs2 pid2
  cases hfs : fs2 pid2 with
  | missing => simp [cmd_from_pid, hfs]
  | invalidUtf8 => simp [cmd_from_pid, hfs]
  | ok data =>
    obtain ⟨f, rest, hfr⟩ := splitNul_cons data
    simp [cmd_from_pid, hfs, hfr]

/-- Claim C10 witness: the theorem applied to the invalid-UTF-8
filesystem at pid 3. -/
theorem C10_encoding_surface_witness :
    cmd_from_pid fsBad 3 =
      .error (.IoError ("failed to read pid file: " ++ toString 3)) :=
  (C10_encoding_surface fsBad 3 rfl).1

/-- Claim C3 witness: the amended theorem applied at a concrete spawner,
projecting the abort equation. -/
theorem C3_empty_args_aborts_witness :
    run_program (fun _ _ => SpawnResult.exited true (OutBytes.valid "hi"))
      [] = none :=
  (C3_empty_args_aborts
    (fun _ _ => SpawnResult.exited true (OutBytes.valid "hi"))).1

/-- Claim C9 witness: the truncating equation of the byte-length claim,
projected from the theorem. -/
theorem C9_trim_bytes_witness :
    trim_long_string "ééééé" 10 "..." = some "ééééé..." :=
  C9_trim_bytes.1.2.2.1
